import Mathlib

/-!
Verification of the data pipeline of the `descritores` dashboards
(`src/desc/desc2.py` and `src/desc/esc.py`): the Excel loader with its
column validation and score normalization, the boolean-mask filter built
in `main`, the groupby-mean aggregation, the summary cards, and the CSV
export.  Scores (pandas float64 columns holding percentages) are embedded
as rationals; DataFrames as ordered lists of records.
-/

/-- One row of the loaded table.  The union of the columns the two
dashboard variants read: `desc2.py` uses `ETAPA`, `COMPONENTE`,
`DESCRITOR`, `DESCRIÇÃO` and the score column `MÉDIA ACERTOS (%)`;
`esc.py` uses `ESCOLA`, `ETAPA`, `COMP. CURRICULAR`, `DESCRITOR`,
`QUESTÃO` and the score column `DESEMPENHO`. -/
structure Row where
  escola : String
  etapa : String
  componente : String
  descritor : String
  descricao : String
  questao : String
  score : ℚ
deriving DecidableEq, Repr

/-- The filter selections of `desc2.py`'s `main` (lines 367-392): the
`ETAPA` multiselect, the `COMPONENTE` multiselect, the score-range
slider, and the optional `DESCRITOR` multiselect. -/
structure FilterSpec where
  anos : List String
  componentes : List String
  minScore : ℚ
  maxScore : ℚ
  descritores : List String
deriving DecidableEq, Repr

/-- The boolean mask of `desc2.py` lines 395-400:
`df['ETAPA'].isin(anos) & df['COMPONENTE'].isin(componentes) &
(df['MÉDIA ACERTOS (%)'] >= min_score) & (df['MÉDIA ACERTOS (%)'] <= max_score)`. -/
def rowPred (s : FilterSpec) (r : Row) : Bool :=
  s.anos.contains r.etapa && s.componentes.contains r.componente &&
    decide (s.minScore ≤ r.score) && decide (r.score ≤ s.maxScore)

/-- The whole filter of `desc2.py`'s `main` (lines 394-403): the mask
above, then — only when the `descritores` list is non-empty, because
`if descritores:` is false on an empty Python list — a further
`isin(descritores)` mask. -/
def applyFilter (df : List Row) (s : FilterSpec) : List Row :=
  let base := df.filter (rowPred s)
  if s.descritores.isEmpty then base
  else base.filter (fun r => s.descritores.contains r.descritor)

/-- The filter selections of `esc.py`'s `main` (lines 358-392): the
school and the stage come from single-select `selectbox` widgets, so
they are single strings, wrapped into one-element lists at use site. -/
structure EscFilterSpec where
  escola : String
  etapa : String
  componentes : List String
  minScore : ℚ
  maxScore : ℚ
  descritores : List String
deriving DecidableEq, Repr

/-- The boolean mask of `esc.py` lines 395-401:
`df['ESCOLA'].isin([escolas]) & df['ETAPA'].isin([etapas]) &
df['COMP. CURRICULAR'].isin(componentes) & (df['DESEMPENHO'] >= min_score)
& (df['DESEMPENHO'] <= max_score)`. -/
def escRowPred (s : EscFilterSpec) (r : Row) : Bool :=
  [s.escola].contains r.escola && [s.etapa].contains r.etapa &&
    s.componentes.contains r.componente &&
    decide (s.minScore ≤ r.score) && decide (r.score ≤ s.maxScore)

/-- The whole filter of `esc.py`'s `main` (lines 394-404), with the same
`if descritores:` treatment of the optional descriptor multiselect. -/
def applyEscFilter (df : List Row) (s : EscFilterSpec) : List Row :=
  let base := df.filter (escRowPred s)
  if s.descritores.isEmpty then base
  else base.filter (fun r => s.descritores.contains r.descritor)

/-- A pandas score column as the loader sees it: either the column read
with a textual (`object`) dtype, or one already numeric.  `desc2.py`
line 69 branches on exactly this dtype test. -/
inductive ScoreColumn
  | textual (cells : List String)
  | numeric (vals : List ℚ)
deriving DecidableEq, Repr

/-- The exceptions the body of `load_data`'s `try` can raise: an I/O or
Excel-parse fault from `pd.ExcelFile`/`pd.read_excel`, and the
`ValueError` that `.astype(float)` raises on an unparseable cell. -/
inductive PyExn
  | ioError
  | valueError
deriving DecidableEq, Repr

/-- The `logger.error` events of `load_data`, one per failure path; the
`missingColumns` event carries the `missing_cols` list and the
`loadException` event the exception caught by the `except` clause. -/
inductive LogEvent
  | fileNotFound
  | sheetNotFound
  | missingColumns (cols : List String)
  | loadException (e : PyExn)
deriving DecidableEq, Repr

/-- The validated table `desc2.py`'s `load_data` returns: the surviving
header and the normalized score column (the other cells pass through
untouched and are not modelled). -/
structure LoadedTable where
  columns : List String
  scores : List ℚ
deriving DecidableEq, Repr

/-- The environment `load_data` runs against: whether the path resolves
(`os.path.exists`), whether the underlying Excel reader raises
(`pd.ExcelFile` / `pd.read_excel`), the workbook's sheet names, and the
named sheet's header row and score column. -/
structure LoadInput where
  fileExists : Bool
  readFault : Bool
  sheetNames : List String
  columns : List String
  scores : ScoreColumn
deriving DecidableEq, Repr

/-- `.str.replace('%', '')` on a cell: every percent sign removed
(`desc2.py` line 72). -/
def removePercent (s : String) : String :=
  String.mk (s.data.filter (fun c => c ≠ '%'))

/-- `.str.replace(',', '.')` on a cell: every comma becomes a period
(`desc2.py` line 73). -/
def commaToDot (s : String) : String :=
  String.mk (s.data.map (fun c => if c = ',' then '.' else c))

/-- Split a character list at every occurrence of `c` (used to read a
decimal literal around its point). -/
def splitOnChar (c : Char) : List Char → List (List Char)
  | [] => [[]]
  | a :: t =>
    match splitOnChar c t with
    | [] => [[]]
    | g :: gs => if a = c then [] :: g :: gs else (a :: g) :: gs

def digitsValAux : List Char → Nat → Option Nat
  | [], acc => some acc
  | c :: t, acc =>
    if c.isDigit then digitsValAux t (acc * 10 + (c.toNat - 48)) else none

/-- The value of a non-empty all-digit character list. -/
def digitsVal (cs : List Char) : Option Nat :=
  if cs.isEmpty then none else digitsValAux cs 0

/-- The scaled-integer reading of a decimal literal: `some (n, k)` with
value `n / 10 ^ k`.  Models Python `float()` restricted to unsigned
plain decimal literals — the grammar the score column uses. -/
def parseDecimalParts (s : String) : Option (Nat × Nat) :=
  match splitOnChar '.' s.data with
  | [w] => (digitsVal w).map (fun n => (n, 0))
  | [w, f] =>
    match digitsVal w, digitsVal f with
    | some a, some b => some (a * 10 ^ f.length + b, f.length)
    | _, _ => none
  | _ => none

/-- The rational a decimal literal denotes. -/
def parseDecimal (s : String) : Option ℚ :=
  (parseDecimalParts s).map (fun p => (p.1 : ℚ) / (10 : ℚ) ^ p.2)

/-- What `df['MÉDIA ACERTOS (%)'].str.replace('%','').str.replace(',','.')
.astype(float)` does to one cell (`desc2.py` lines 70-74). -/
def normalizeCell (s : String) : Option ℚ :=
  parseDecimal (commaToDot (removePercent s))

/-- The dtype-guarded normalization of the score column (`desc2.py`
lines 69-74): a textual column is normalized cell by cell and fails as a
whole if any cell fails (`astype` raises); a numeric column passes
through unchanged. -/
def normalizeScores : ScoreColumn → Option (List ℚ)
  | .numeric vs => some vs
  | .textual cs => cs.mapM normalizeCell

/-- `required_columns` of `desc2.py` lines 55-61, in the dictionary's
insertion order. -/
def required_columns : List String :=
  ["DESCRITOR", "MÉDIA ACERTOS (%)", "COMPONENTE", "ETAPA", "DESCRIÇÃO"]

/-- The header after `df.drop(columns=['Unnamed: 0'])` when that
artifact column is present (`desc2.py` lines 51-52). -/
def desc2Cols (inp : LoadInput) : List String :=
  inp.columns.filter (fun c => c ≠ "Unnamed: 0")

/-- `missing_cols = [col for col in required_columns if col not in df.columns]`
(`desc2.py` line 63). -/
def desc2Missing (inp : LoadInput) : List String :=
  required_columns.filter (fun c => decide (c ∉ desc2Cols inp))

/-- The body of `desc2.py`'s `load_data` `try` block (lines 37-76):
each checked failure logs and returns `None`; `.error e` stands for an
exception `e` escaping the body. -/
def load_body (inp : LoadInput) :
    Except PyExn (Option LoadedTable × List LogEvent) :=
  if !inp.fileExists then .ok (none, [.fileNotFound])
  else if inp.readFault then .error .ioError
  else if !inp.sheetNames.contains "DESCRITORES_2025" then
    .ok (none, [.sheetNotFound])
  else if !(desc2Missing inp).isEmpty then
    .ok (none, [.missingColumns (desc2Missing inp)])
  else
    match normalizeScores inp.scores with
    | none => .error .valueError
    | some vs => .ok (some ⟨desc2Cols inp, vs⟩, [])

/-- `desc2.py`'s `load_data` (lines 32-80): the `try` body wrapped in
`except Exception as e: logger.error(...); return None`, so every
escaping exception becomes the value `None` plus a log event. -/
def load_data (inp : LoadInput) : Option LoadedTable × List LogEvent :=
  match load_body inp with
  | .error e => (none, [.loadException e])
  | .ok r => r

/-- `required_columns` of `esc.py` lines 52-59, in insertion order. -/
def esc_required_columns : List String :=
  ["ESCOLA", "DESEMPENHO", "QUESTÃO", "DESCRITOR", "ETAPA", "COMP. CURRICULAR"]

/-- `missing_cols` of `esc.py` line 61 (this variant drops no column). -/
def escMissing (inp : LoadInput) : List String :=
  esc_required_columns.filter (fun c => decide (c ∉ inp.columns))

/-- The table `esc.py`'s `load_data` returns: this variant validates the
header but performs no score normalization, so the column passes through
as read. -/
structure EscLoadedTable where
  columns : List String
  scores : ScoreColumn
deriving DecidableEq, Repr

/-- The body of `esc.py`'s `load_data` `try` block (lines 37-66). -/
def esc_load_body (inp : LoadInput) :
    Except PyExn (Option EscLoadedTable × List LogEvent) :=
  if !inp.fileExists then .ok (none, [.fileNotFound])
  else if inp.readFault then .error .ioError
  else if !inp.sheetNames.contains "5°_ANO_E_9°_ANO" then
    .ok (none, [.sheetNotFound])
  else if !(escMissing inp).isEmpty then
    .ok (none, [.missingColumns (escMissing inp)])
  else .ok (some ⟨inp.columns, inp.scores⟩, [])

/-- `esc.py`'s `load_data` (lines 32-70): body plus catch-all handler. -/
def esc_load_data (inp : LoadInput) : Option EscLoadedTable × List LogEvent :=
  match esc_load_body inp with
  | .error e => (none, [.loadException e])
  | .ok r => r

/-- Insert into a sorted list (helper for the key sort pandas `groupby`
performs on the group keys). -/
def insertLe {K : Type} (le : K → K → Bool) (a : K) : List K → List K
  | [] => [a]
  | b :: t => if le a b then a :: b :: t else b :: insertLe le a t

/-- Insertion sort by a boolean order (the `sort=True` default of
pandas `groupby`, which emits groups in sorted key order). -/
def sortLe {K : Type} (le : K → K → Bool) : List K → List K
  | [] => []
  | a :: t => insertLe le a (sortLe le t)

/-- The score cells of the rows whose key is `k`. -/
def groupScores {K : Type} [DecidableEq K]
    (keyOf : Row → K) (df : List Row) (k : K) : List ℚ :=
  (df.filter (fun r => decide (keyOf r = k))).map Row.score

/-- The unweighted arithmetic mean pandas' `.mean()` reduces each group
with. -/
def meanQ (l : List ℚ) : ℚ := l.sum / (l.length : ℚ)

/-- `df.groupby(keys)[score].mean().reset_index()` (`desc2.py` line 156,
`esc.py` lines 148 and 217): one output row per distinct key, holding
the group's mean score, in sorted key order. -/
def groupbyMean {K : Type} [DecidableEq K]
    (keyOf : Row → K) (le : K → K → Bool) (df : List Row) : List (K × ℚ) :=
  (sortLe le (df.map keyOf).dedup).map
    (fun k => (k, meanQ (groupScores keyOf df k)))

/-- The `ascending=` argument built from the sort-order radio widget:
`ascending=(sort_order == 'Menores médias')` (`desc2.py` line 227,
`esc.py` line 220). -/
def sortAscending (sort_order : String) : Bool :=
  sort_order == "Menores médias"

/-- Whether a key-mean list is sorted by its mean in the requested
direction (non-strictly). -/
def sortedByMeanB {K : Type} (asc : Bool) : List (K × ℚ) → Bool
  | [] => true
  | [_] => true
  | a :: b :: t =>
    (if asc then decide (a.2 ≤ b.2) else decide (b.2 ≤ a.2)) &&
      sortedByMeanB asc (b :: t)

/-- The contract of `DataFrame.sort_values(score, ascending=asc)` with
its default `kind='quicksort'` (`desc2.py` lines 225-228, `esc.py`
lines 218-221): the output is some permutation of the input that is
sorted by the score in the requested direction.  pandas only guarantees
a stable order under `kind='mergesort'`/`'stable'`, which these calls do
not request, so the relative order of equal scores is unspecified. -/
def sortValuesOutput {K : Type} [DecidableEq K]
    (asc : Bool) (inp out : List (K × ℚ)) : Prop :=
  out.Perm inp ∧ sortedByMeanB asc out = true

/-- The smallest-to-largest fold `pandas.Series.max()` performs;
only ever applied to a non-empty column here. -/
def listMaxQ : List ℚ → ℚ
  | [] => 0
  | a :: t => t.foldl max a

/-- `pandas.Series.min()` on a non-empty column. -/
def listMinQ : List ℚ → ℚ
  | [] => 0
  | a :: t => t.foldl min a

/-- The four figures `show_metrics_cards` computes (`desc2.py` lines
86-89): mean, max and min of the score column and the row count. -/
structure Summary where
  avg_score : ℚ
  max_score : ℚ
  min_score : ℚ
  count : Nat
deriving DecidableEq, Repr

/-- The computation inside `show_metrics_cards` (`desc2.py` lines
83-89), stripped of its HTML rendering. -/
def show_metrics_cards (df : List Row) : Summary :=
  { avg_score := meanQ (df.map Row.score)
    max_score := listMaxQ (df.map Row.score)
    min_score := listMinQ (df.map Row.score)
    count := df.length }

/-- An injective rendering of a score cell for the CSV model (byte-level
float formatting is outside the embedding). -/
def ratStr (q : ℚ) : String :=
  toString q.num ++ "/" ++ toString q.den

/-- One CSV line of a `desc2.py` row, fields in the table's column
order. -/
def csvLine (r : Row) : String :=
  String.intercalate "," [r.descritor, ratStr r.score, r.componente, r.etapa, r.descricao]

/-- `df.to_csv(index=False)`: a header line followed by one line per
row, in order. -/
def toCsv (df : List Row) : String :=
  String.intercalate "\n"
    ("DESCRITOR,MÉDIA ACERTOS (%),COMPONENTE,ETAPA,DESCRIÇÃO" :: df.map csvLine)

/-- The payloads of the two `download_button`s of
`show_enhanced_data_table` (`desc2.py` lines 319-332): the button
labelled `dados filtrados` and the button labelled `dados completos`. -/
structure Exports where
  filteredCsv : String
  completeCsv : String
deriving DecidableEq, Repr

/-- The export part of `show_enhanced_data_table` (`desc2.py` lines
283-332): both buttons serialize `df.to_csv(index=False)` on the one
`df` argument the function receives. -/
def show_enhanced_data_table (df : List Row) : Exports :=
  { filteredCsv := toCsv df
    completeCsv := toCsv df }

/-- What one run of `desc2.py`'s `main` renders after the load step:
the `st.error` + `return` branch when `load_data` gave `None` (lines
354-361), the `st.warning` + `return` branch when the filtered frame is
empty (lines 405-407), or the full render path with its metric cards,
export payloads and data table (lines 409-419). -/
inductive Outcome
  | loadFailureMessage
  | noMatchingData
  | rendered (metrics : Summary) (exports : Exports) (table : List Row)
deriving DecidableEq, Repr

/-- `desc2.py`'s `main` from the `load_data` call down (lines 353-419),
with the loaded frame abstracted to its row list. -/
def mainAfterLoad (loaded : Option (List Row)) (s : FilterSpec) : Outcome :=
  match loaded with
  | none => .loadFailureMessage
  | some df =>
    let fdf := applyFilter df s
    if fdf.isEmpty then .noMatchingData
    else .rendered (show_metrics_cards fdf) (show_enhanced_data_table fdf) fdf

/-- A concrete row used by the counterexamples and witnesses. -/
def c1Row : Row :=
  { escola := "E1", etapa := "5º ANO", componente := "MATEMÁTICA",
    descritor := "D1", descricao := "desc", questao := "Q1", score := 70 }

/-- A filter selection whose descriptor allowed set is empty while the
other selections admit `c1Row`. -/
def c1Spec : FilterSpec :=
  { anos := ["5º ANO"], componentes := ["MATEMÁTICA"],
    minScore := 0, maxScore := 100, descritores := [] }

/-- A filter selection whose stage allowed set is empty. -/
def c1EmptySpec : FilterSpec :=
  { anos := [], componentes := ["MATEMÁTICA"],
    minScore := 0, maxScore := 100, descritores := ["D1"] }

/-- An `esc.py` filter selection whose component allowed set is empty. -/
def c1EscSpec : EscFilterSpec :=
  { escola := "E1", etapa := "5º ANO", componentes := [],
    minScore := 0, maxScore := 100, descritores := [] }

/-- Claim C1, refuted: an empty allowed set for the descriptor-code
constraint does NOT yield a zero-row result — `if descritores:` skips
that mask entirely on an empty list, so the one matching row survives
even though the descriptor allowed set is empty. -/
theorem C1_descriptor_counterexample :
    c1Spec.descritores = [] ∧ applyFilter [c1Row] c1Spec ≠ [] := by
  refine ⟨rfl, ?_⟩
  decide

/-- Claim C1 as amended: an empty allowed set for one of the
unconditionally applied categorical constraints (`ETAPA`/`anos` or
`COMPONENTE`(s), in either variant) yields a zero-row result regardless
of the rest of the selection; the optional descriptor constraint is the
exception, its empty set meaning "no descriptor mask". -/
theorem C1_empty_allowed_set (df : List Row) (s : FilterSpec)
    (s2 : EscFilterSpec) (h : s.anos = [] ∨ s.componentes = [])
    (h2 : s2.componentes = []) :
    applyFilter df s = [] ∧ applyEscFilter df s2 = [] := by
  constructor
  · have hbase : df.filter (rowPred s) = [] := by
      apply List.filter_eq_nil_iff.mpr
      intro a _
      rcases h with h | h <;> simp [rowPred, h]
    simp [applyFilter, hbase]
  · have hbase : df.filter (escRowPred s2) = [] := by
      apply List.filter_eq_nil_iff.mpr
      intro a _
      simp [escRowPred, h2]
    simp [applyEscFilter, hbase]

/-- Witness for `C1_empty_allowed_set` at a concrete table and concrete
selections. -/
theorem C1_empty_allowed_set_witness :
    applyFilter [c1Row] c1EmptySpec = [] ∧ applyEscFilter [c1Row] c1EscSpec = [] :=
  C1_empty_allowed_set [c1Row] c1EmptySpec c1EscSpec (Or.inl rfl) rfl

/-- Claim C4: the filtered frame is a sublist of the input frame (each
output row occurs verbatim in the input, relative order preserved), and
filtering twice with the same selection equals filtering once. -/
theorem C4_filter_subset_idempotent (df : List Row) (s : FilterSpec) :
    List.Sublist (applyFilter df s) df ∧
      applyFilter (applyFilter df s) s = applyFilter df s := by
  by_cases hb : s.descritores.isEmpty
  · have h1 : applyFilter df s = df.filter (rowPred s) := by
      simp [applyFilter, hb]
    have hself : (df.filter (rowPred s)).filter (rowPred s) = df.filter (rowPred s) :=
      List.filter_eq_self.mpr (fun a ha => (List.mem_filter.mp ha).2)
    refine ⟨?_, ?_⟩
    · rw [h1]; exact List.filter_sublist df
    · rw [h1]; simp [applyFilter, hb, hself]
  · have h1 : applyFilter df s =
        (df.filter (rowPred s)).filter (fun r => s.descritores.contains r.descritor) := by
      simp [applyFilter, hb]
    refine ⟨?_, ?_⟩
    · rw [h1]; exact (List.filter_sublist _).trans (List.filter_sublist df)
    · rw [h1]
      have hp : ((df.filter (rowPred s)).filter
          (fun r => s.descritores.contains r.descritor)).filter (rowPred s) =
          (df.filter (rowPred s)).filter (fun r => s.descritores.contains r.descritor) :=
        List.filter_eq_self.mpr
          (fun a ha => (List.mem_filter.mp (List.mem_filter.mp ha).1).2)
      have hq : (((df.filter (rowPred s)).filter
          (fun r => s.descritores.contains r.descritor)).filter
            (fun r => s.descritores.contains r.descritor)) =
          (df.filter (rowPred s)).filter (fun r => s.descritores.contains r.descritor) :=
        List.filter_eq_self.mpr (fun a ha => (List.mem_filter.mp ha).2)
      unfold applyFilter
      simp only []
      rw [if_neg hb, hp, hq]

/-- Every row the esc filter keeps satisfies its mask. -/
lemma mem_applyEscFilter {df : List Row} {s : EscFilterSpec} {r : Row}
    (hr : r ∈ applyEscFilter df s) : escRowPred s r = true := by
  unfold applyEscFilter at hr
  by_cases hb : s.descritores.isEmpty
  · simp only [hb, if_true] at hr
    exact (List.mem_filter.mp hr).2
  · simp only [hb, if_false] at hr
    exact (List.mem_filter.mp (List.mem_filter.mp hr).1).2

/-- The school and stage conjuncts of the esc mask pin those columns to
the selected values. -/
lemma escRowPred_fixes {s : EscFilterSpec} {r : Row}
    (h : escRowPred s r = true) : r.escola = s.escola ∧ r.etapa = s.etapa := by
  simp [escRowPred] at h
  exact ⟨h.1.1.1.1, h.1.1.1.2⟩

/-- A list whose members are all one value deduplicates to at most one
entry. -/
lemma dedup_length_le_one {α : Type} [DecidableEq α] {l : List α} {a : α}
    (h : ∀ x ∈ l, x = a) : l.dedup.length ≤ 1 := by
  rcases hd : l.dedup with _ | ⟨x, _ | ⟨y, t⟩⟩
  · simp
  · simp
  · exfalso
    have hx : x ∈ l.dedup := by rw [hd]; exact List.mem_cons_self _ _
    have hy : y ∈ l.dedup := by rw [hd]; simp
    have hnd := l.nodup_dedup
    rw [hd] at hnd
    have hxy : x = y := (h x (List.mem_dedup.mp hx)).trans (h y (List.mem_dedup.mp hy)).symm
    exact (List.nodup_cons.mp hnd).1 (hxy ▸ List.mem_cons_self y t)

/-- Claim C10: in the `esc.py` variant the school and stage constraints
are singletons, so every row of the filtered table carries the selected
school and the selected stage, and each of those columns holds at most
one distinct value. -/
theorem C10_singleton_school_stage (df : List Row) (s : EscFilterSpec) :
    (∀ r ∈ applyEscFilter df s, r.escola = s.escola ∧ r.etapa = s.etapa) ∧
      ((applyEscFilter df s).map Row.escola).dedup.length ≤ 1 ∧
      ((applyEscFilter df s).map Row.etapa).dedup.length ≤ 1 := by
  have hfix : ∀ r ∈ applyEscFilter df s, r.escola = s.escola ∧ r.etapa = s.etapa :=
    fun r hr => escRowPred_fixes (mem_applyEscFilter hr)
  have h1 : ∀ x ∈ (applyEscFilter df s).map Row.escola, x = s.escola := by
    intro x hx
    rcases List.mem_map.mp hx with ⟨r, hr, hrx⟩
    exact hrx ▸ (hfix r hr).1
  have h2 : ∀ x ∈ (applyEscFilter df s).map Row.etapa, x = s.etapa := by
    intro x hx
    rcases List.mem_map.mp hx with ⟨r, hr, hrx⟩
    exact hrx ▸ (hfix r hr).2
  exact ⟨hfix, dedup_length_le_one h1, dedup_length_le_one h2⟩

/-- A well-formed workbook whose score column holds the single
unparseable textual cell `"abc"`. -/
def c2Input : LoadInput :=
  { fileExists := true, readFault := false,
    sheetNames := ["DESCRITORES_2025"], columns := required_columns,
    scores := ScoreColumn.textual ["abc"] }

/-- A well-formed workbook for the `esc.py` loader whose score column
is textual and contains an unparseable cell. -/
def c2EscInput : LoadInput :=
  { fileExists := true, readFault := false,
    sheetNames := ["5°_ANO_E_9°_ANO"], columns := esc_required_columns,
    scores := ScoreColumn.textual ["85,3%", "abc"] }

/-- Claim C2, refuted for the `esc.py` loader (one of the claim's cited
sources): that variant performs no score normalization at all — the
load SUCCEEDS on a textual score column containing the unparseable cell
`"abc"`, returning the table with `"85,3%"` and `"abc"` still raw text
instead of failing with the MalformedScore outcome. -/
theorem C2_esc_counterexample :
    esc_load_data c2EscInput =
        (some ⟨esc_required_columns, ScoreColumn.textual ["85,3%", "abc"]⟩, []) ∧
      (esc_load_data c2EscInput).1 ≠ none := by
  refine ⟨?_, ?_⟩ <;> decide

/-- Claim C2 as amended: in the `desc2.py` loader the textual cell
`"85,3%"` normalizes to `85.3`, a numeric score column passes through
unchanged, and the textual cell `"abc"`, unparseable after
normalization, makes the load fail — the `ValueError` from
`.astype(float)` is caught by the loader's `except` clause, which is
this program's `MalformedScore` outcome.  The `esc.py` loader, however,
performs no normalization: on any well-formed workbook it returns the
score column exactly as read, textual or not, and never fails on an
unparseable score cell. -/
theorem C2_score_normalization :
    normalizeCell "85,3%" = some (853 / 10) ∧
      (∀ vs : List ℚ, normalizeScores (ScoreColumn.numeric vs) = some vs) ∧
      load_data c2Input = (none, [LogEvent.loadException PyExn.valueError]) ∧
      (∀ inp : LoadInput, inp.fileExists = true → inp.readFault = false →
        inp.sheetNames.contains "5°_ANO_E_9°_ANO" = true → escMissing inp = [] →
        esc_load_data inp = (some ⟨inp.columns, inp.scores⟩, [])) := by
  refine ⟨?_, fun vs => rfl, ?_, ?_⟩
  · have h : normalizeCell "85,3%" = some (((853 : ℕ) : ℚ) / (10 : ℚ) ^ (1 : ℕ)) := rfl
    rw [h]
    norm_num
  · decide
  · intro inp hf hr hs hm
    have hs2 : "5°_ANO_E_9°_ANO" ∈ inp.sheetNames := by simpa using hs
    have hm2 : (escMissing inp).isEmpty = true := by rw [hm]; rfl
    simp [esc_load_data, esc_load_body, hf, hr, hs2, hm2]

/-- Claim C3: both loaders are total functions of their input — the
caller always receives a pair (optional table, log), and every
exception the `try` body raises is converted by the `except` clause
into the `None` result with a logged cause, never re-raised. -/
theorem C3_loader_total_no_raise (inp : LoadInput) :
    ((∃ t, (load_data inp).1 = some t) ∨ (load_data inp).1 = none) ∧
      (∀ e, load_body inp = Except.error e →
        load_data inp = (none, [LogEvent.loadException e])) ∧
      ((∃ t, (esc_load_data inp).1 = some t) ∨ (esc_load_data inp).1 = none) ∧
      (∀ e, esc_load_body inp = Except.error e →
        esc_load_data inp = (none, [LogEvent.loadException e])) := by
  refine ⟨?_, ?_, ?_, ?_⟩
  · cases h : (load_data inp).1 with
    | none => exact Or.inr rfl
    | some t => exact Or.inl ⟨t, rfl⟩
  · intro e he
    unfold load_data
    rw [he]
  · cases h : (esc_load_data inp).1 with
    | none => exact Or.inr rfl
    | some t => exact Or.inl ⟨t, rfl⟩
  · intro e he
    unfold esc_load_data
    rw [he]

/-- Claim C5: when the (artifact-stripped) header misses required
columns, `load_data` returns the failure value with the
`missing_cols` log carrying exactly the required columns that are
absent — no more, no fewer — and no table. -/
theorem C5_missing_columns (inp : LoadInput)
    (hf : inp.fileExists = true) (hr : inp.readFault = false)
    (hs : inp.sheetNames.contains "DESCRITORES_2025" = true)
    (hm : desc2Missing inp ≠ []) :
    load_data inp = (none, [LogEvent.missingColumns (desc2Missing inp)]) ∧
      (∀ c, c ∈ desc2Missing inp ↔ (c ∈ required_columns ∧ c ∉ desc2Cols inp)) := by
  constructor
  · have hne : (desc2Missing inp).isEmpty = false := by
      cases hval : desc2Missing inp with
      | nil => exact absurd hval hm
      | cons a t => rfl
    have hs2 : "DESCRITORES_2025" ∈ inp.sheetNames := by
      simpa using hs
    simp [load_data, load_body, hf, hr, hs2, hne]
  · intro c
    simp [desc2Missing, List.mem_filter]

/-- A concrete load input whose header misses three required columns. -/
def c5Input : LoadInput :=
  { fileExists := true, readFault := false,
    sheetNames := ["DESCRITORES_2025"], columns := ["DESCRITOR", "ETAPA"],
    scores := ScoreColumn.numeric [] }

/-- Witness for `C5_missing_columns` at `c5Input`. -/
theorem C5_missing_columns_witness :
    load_data c5Input = (none, [LogEvent.missingColumns (desc2Missing c5Input)]) ∧
      (∀ c, c ∈ desc2Missing c5Input ↔
        (c ∈ required_columns ∧ c ∉ desc2Cols c5Input)) :=
  C5_missing_columns c5Input rfl rfl rfl (by decide)

/-- Lexicographic comparison of character lists (structural, so that
it evaluates inside the kernel). -/
def charListLe : List Char → List Char → Bool
  | [], _ => true
  | _ :: _, [] => false
  | a :: s, b :: t => if a < b then true else if b < a then false else charListLe s t

/-- The ascending string order pandas sorts group keys by. -/
def strLeB (a b : String) : Bool := charListLe a.data b.data

lemma map_fst_pair {K A : Type} (g : K → A) (l : List K) :
    (l.map (fun k => (k, g k))).map Prod.fst = l := by
  induction l with
  | nil => rfl
  | cons a t ih => simp [ih]

lemma insertLe_perm {K : Type} (le : K → K → Bool) (a : K) (l : List K) :
    (insertLe le a l).Perm (a :: l) := by
  induction l with
  | nil => simp [insertLe]
  | cons b t ih =>
    cases hab : le a b with
    | true => simp [insertLe, hab]
    | false =>
      simp only [insertLe, hab, Bool.false_eq_true, if_false]
      exact (ih.cons b).trans (List.Perm.swap a b t)

lemma sortLe_perm {K : Type} (le : K → K → Bool) (l : List K) :
    (sortLe le l).Perm l := by
  induction l with
  | nil => simp [sortLe]
  | cons a t ih => exact (insertLe_perm le a (sortLe le t)).trans (ih.cons a)

/-- The key column of the aggregated frame is the sorted distinct key
list. -/
lemma groupbyMean_keys {K : Type} [DecidableEq K] (keyOf : Row → K)
    (le : K → K → Bool) (df : List Row) :
    (groupbyMean keyOf le df).map Prod.fst = sortLe le (df.map keyOf).dedup := by
  unfold groupbyMean
  exact map_fst_pair _ _

/-- The rows of the running example of §8 of the spec:
`[(A,50),(B,30),(A,70)]` keyed by the descriptor column. -/
def c7Rows : List Row :=
  [{ escola := "E1", etapa := "5º ANO", componente := "MAT",
     descritor := "A", descricao := "", questao := "Q1", score := 50 },
   { escola := "E1", etapa := "5º ANO", componente := "MAT",
     descritor := "B", descricao := "", questao := "Q2", score := 30 },
   { escola := "E1", etapa := "5º ANO", componente := "MAT",
     descritor := "A", descricao := "", questao := "Q3", score := 70 }]

/-- The example aggregates to `A → 60`, `B → 30`. -/
lemma c7Rows_agg : groupbyMean Row.descritor strLeB c7Rows = [("A", 60), ("B", 30)] := by
  have h : groupbyMean Row.descritor strLeB c7Rows =
      [("A", meanQ [(50 : ℚ), 70]), ("B", meanQ [(30 : ℚ)])] := rfl
  rw [h]
  norm_num [meanQ]

/-- Claim C7: `groupbyMean` returns one row per distinct key-tuple of
the input (no duplicate keys, and a key appears in the output exactly
when some input row carries it), each holding the unweighted arithmetic
mean of its group's scores; on the example `[(A,50),(B,30),(A,70)]` it
yields `A → 60` and `B → 30`. -/
theorem C7_aggregate_mean :
    (∀ (K : Type) [DecidableEq K] (keyOf : Row → K) (le : K → K → Bool)
        (df : List Row),
      ((groupbyMean keyOf le df).map Prod.fst).Nodup ∧
        (∀ k, k ∈ (groupbyMean keyOf le df).map Prod.fst ↔ k ∈ df.map keyOf) ∧
        (∀ k v, (k, v) ∈ groupbyMean keyOf le df →
          v = meanQ (groupScores keyOf df k))) ∧
      groupbyMean Row.descritor strLeB c7Rows = [("A", 60), ("B", 30)] := by
  refine ⟨?_, c7Rows_agg⟩
  intro K _ keyOf le df
  refine ⟨?_, ?_, ?_⟩
  · rw [groupbyMean_keys]
    exact ((sortLe_perm le _).nodup_iff).mpr (List.nodup_dedup _)
  · intro k
    rw [groupbyMean_keys]
    rw [(sortLe_perm le _).mem_iff]
    exact List.mem_dedup
  · intro k v hkv
    unfold groupbyMean at hkv
    rcases List.mem_map.mp hkv with ⟨k2, _, heq⟩
    have hk : k2 = k := congrArg Prod.fst heq
    have hv : meanQ (groupScores keyOf df k2) = v := congrArg Prod.snd heq
    rw [hk] at hv
    exact hv.symm

lemma perm_pair_cases {α : Type} {a b : α} {l : List α} (h : l.Perm [a, b]) :
    l = [a, b] ∨ l = [b, a] := by
  have hlen : l.length = 2 := by simpa using h.length_eq
  rcases l with _ | ⟨x, _ | ⟨y, _ | ⟨z, t⟩⟩⟩
  · simp at hlen
  · simp at hlen
  · have hx : x ∈ [a, b] := h.subset (by simp)
    rcases (by simpa using hx : x = a ∨ x = b) with rfl | rfl
    · have hy : [y].Perm [b] := h.cons_inv
      have hyb : y = b := by simpa using List.perm_singleton.mp hy
      subst hyb
      exact Or.inl rfl
    · have h2 : (x :: y :: ([] : List α)).Perm (x :: a :: []) :=
        h.trans (List.Perm.swap x a [])
      have hy : [y].Perm [a] := h2.cons_inv
      have hya : y = a := by simpa using List.perm_singleton.mp hy
      subst hya
      exact Or.inr rfl
  · simp at hlen

/-- Claim C6 as amended: for the example aggregation `A → 60, B → 30`,
any output `sort_values` may produce for the `Maiores médias`
(descending) request puts `A` before `B`, and any output for the
`Menores médias` (ascending) request puts `B` before `A`; the
tie-breaking order among equal means, however, is NOT guaranteed stable
(see the counterexample). -/
theorem C6_sort_direction (out1 out2 : List (String × ℚ))
    (h1 : sortValuesOutput (sortAscending "Maiores médias")
      (groupbyMean Row.descritor strLeB c7Rows) out1)
    (h2 : sortValuesOutput (sortAscending "Menores médias")
      (groupbyMean Row.descritor strLeB c7Rows) out2) :
    out1 = [("A", 60), ("B", 30)] ∧ out2 = [("B", 30), ("A", 60)] := by
  rw [c7Rows_agg] at h1 h2
  obtain ⟨hp1, hs1⟩ := h1
  obtain ⟨hp2, hs2⟩ := h2
  constructor
  · rcases perm_pair_cases hp1 with h | h
    · exact h
    · exfalso
      rw [h] at hs1
      have hasc : sortAscending "Maiores médias" = false := by decide
      rw [hasc] at hs1
      simp [sortedByMeanB] at hs1
      norm_num at hs1
  · rcases perm_pair_cases hp2 with h | h
    · exfalso
      rw [h] at hs2
      have hasc : sortAscending "Menores médias" = true := by decide
      rw [hasc] at hs2
      simp [sortedByMeanB] at hs2
      norm_num at hs2
    · exact h

/-- Witness for `C6_sort_direction`: the two sorted outputs at the
concrete example. -/
theorem C6_sort_direction_witness :
    ([("A", (60 : ℚ)), ("B", 30)] : List (String × ℚ)) = [("A", 60), ("B", 30)] ∧
      ([("B", (30 : ℚ)), ("A", 60)] : List (String × ℚ)) = [("B", 30), ("A", 60)] := by
  refine C6_sort_direction [("A", 60), ("B", 30)] [("B", 30), ("A", 60)] ⟨?_, ?_⟩ ⟨?_, ?_⟩
  · rw [c7Rows_agg]
  · decide
  · rw [c7Rows_agg]
    exact List.Perm.swap _ _ _
  · decide

/-- Claim C6, stability part refuted: `sort_values` is called with its
default `kind='quicksort'`, which pandas does not guarantee stable, so
an output that reverses two groups with equal means is a conforming
result of the code — equal means need not keep their prior relative
order. -/
theorem C6_stability_counterexample :
    sortValuesOutput (sortAscending "Maiores médias")
        [(("D1" : String), (60 : ℚ)), ("D2", 60)] [("D2", 60), ("D1", 60)] ∧
      ([(("D2" : String), (60 : ℚ)), ("D1", 60)] ≠ [("D1", 60), ("D2", 60)]) := by
  refine ⟨⟨?_, ?_⟩, ?_⟩
  · decide
  · decide
  · decide

/-- Claim C8: an empty filtered frame makes `main` emit the
"no matching data" warning and return before any rendering — an
outcome distinct from the load-failure outcome — and summary figures
are only ever attached to a rendered outcome whose table is non-empty,
so `show_metrics_cards` is never evaluated on zero rows. -/
theorem C8_empty_filter_state (df : List Row) (s : FilterSpec) :
    (applyFilter df s = [] → mainAfterLoad (some df) s = Outcome.noMatchingData) ∧
      mainAfterLoad none s = Outcome.loadFailureMessage ∧
      Outcome.noMatchingData ≠ Outcome.loadFailureMessage ∧
      (∀ m e tbl, mainAfterLoad (some df) s = Outcome.rendered m e tbl →
        tbl ≠ [] ∧ m = show_metrics_cards tbl ∧ e = show_enhanced_data_table tbl) := by
  refine ⟨?_, rfl, by decide, ?_⟩
  · intro h
    simp [mainAfterLoad, h]
  · intro m e tbl h
    unfold mainAfterLoad at h
    by_cases he : (applyFilter df s).isEmpty
    · simp [he] at h
    · simp only [he, if_false, Bool.false_eq_true] at h
      simp only [Outcome.rendered.injEq] at h
      obtain ⟨hm, hee, ht⟩ := h
      subst ht
      refine ⟨?_, hm.symm, hee.symm⟩
      intro hnil
      rw [hnil] at he
      exact he rfl

/-- A table with one row scoring 45 and one scoring 90. -/
def c9Rows : List Row :=
  [{ escola := "E1", etapa := "5º ANO", componente := "MATEMÁTICA",
     descritor := "D1", descricao := "a", questao := "Q1", score := 45 },
   { escola := "E1", etapa := "5º ANO", componente := "MATEMÁTICA",
     descritor := "D2", descricao := "b", questao := "Q2", score := 90 }]

/-- A selection keeping only the 45-scoring row (score range `[0, 50]`). -/
def c9Spec : FilterSpec :=
  { anos := ["5º ANO"], componentes := ["MATEMÁTICA"],
    minScore := 0, maxScore := 50, descritores := [] }

/-- Claim C9: the payload of the `dados completos` button equals byte
for byte the payload of the `dados filtrados` button — both serialize
the one table `show_enhanced_data_table` receives — and, since `main`
passes `filtered_df`, the "complete" payload differs from the
serialization of the unfiltered table whenever the filter drops a row,
as it does on the concrete example. -/
theorem C9_export_buttons :
    (∀ fdf : List Row,
      (show_enhanced_data_table fdf).completeCsv =
          (show_enhanced_data_table fdf).filteredCsv ∧
        (show_enhanced_data_table fdf).filteredCsv = toCsv fdf) ∧
      (show_enhanced_data_table (applyFilter c9Rows c9Spec)).completeCsv ≠
        toCsv c9Rows := by
  refine ⟨fun fdf => ⟨rfl, rfl⟩, ?_⟩
  decide
